import Mathlib

/-!
# Verification of the geo-search scoring core

A shallow embedding of the scoring/aggregation core of the geo-search
repository, together with proofs about it.

Modules embedded:
* `src/seo_metrics.py`     — class `SEOMetrics` (0-1 scoring convention),
  embedded in namespace `SeoMetricsMain`;
* `src/seo/seo_metrics.py` — class `SEOMetrics` (0-100 scoring convention),
  embedded in namespace `SeoMetricsSub`;
* `src/readability.py`     — class `ReadabilityAnalyzer`, embedded in
  namespace `ReadabilityAnalyzer`;
* `src/crawlability.py`    — `CrawlabilityAnalyzer._analyze_bot_directive`,
  embedded in namespace `CrawlabilityAnalyzer`.

Conventions of the embedding:
* Python numbers (ints and floats used in arithmetic) are modelled as `ℚ`;
  the numeric literals of the source are exact decimal fractions, so the
  rational model is exact.
* Python text is modelled as `List Char`.
* A Python function that can raise an uncaught exception is modelled with
  an `Option` result; `none` means "an exception escapes".  A dictionary
  field access `d['k']` on a possibly-missing key is an `Option.bind`,
  while `d.get('k', default)` is an `Option.getD`.
* Python dictionaries used as records become structures; dictionaries used
  as finite maps become association lists in insertion order.
-/

/-! ## Shared text helpers -/

/-- Characters matched by the regex class `\s` (ASCII). -/
def isSpaceChar (c : Char) : Bool :=
  c = ' ' ∨ c = '\t' ∨ c = '\n' ∨ c = '\r' ∨ c = '\x0b' ∨ c = '\x0c'

/-- Characters matched by the regex class `\w` (ASCII). -/
def isWordChar (c : Char) : Bool :=
  c.isAlpha ∨ c.isDigit ∨ c = '_'

/-- `str.lower()` on a character list (ASCII texts only are considered). -/
def lowerList (s : List Char) : List Char := s.map Char.toLower

/-- Run splitter: cuts a text into the maximal runs of characters
satisfying `keep`, dropping the rest.  `cur` accumulates the current run
in reverse. -/
def runsAux (keep : Char → Bool) (cur : List Char) : List Char → List (List Char)
  | [] => if cur = [] then [] else [cur.reverse]
  | c :: rest =>
    if keep c then runsAux keep (c :: cur) rest
    else if cur = [] then runsAux keep [] rest
    else cur.reverse :: runsAux keep [] rest

/-- `re.findall(r'\w+', s)`: the maximal runs of word characters, in order. -/
def wordTokens (s : List Char) : List (List Char) := runsAux isWordChar [] s

/-- `s.split()`: the maximal runs of non-whitespace characters (Python's
whitespace split drops empty pieces). -/
def splitWs (s : List Char) : List (List Char) :=
  runsAux (fun c => ¬ isSpaceChar c) [] s

/-- Number of maximal runs of the characters `.`, `!`, `?` in a text;
`inRun` records whether the previous character was one of them.
`len(re.split(r'[.!?]+', text))` equals this count plus one, because
`re.split` keeps the (possibly empty) pieces between matches. -/
def sentenceRunsAux (inRun : Bool) : List Char → ℕ
  | [] => 0
  | c :: rest =>
    if c = '.' ∨ c = '!' ∨ c = '?' then
      (if inRun then 0 else 1) + sentenceRunsAux true rest
    else sentenceRunsAux false rest

/-- Number of non-overlapping matches of the regex `[.!?]+` in a text. -/
def sentenceRuns (s : List Char) : ℕ := sentenceRunsAux false s

/-- Substring test (`needle in haystack` on Python strings). -/
def containsSub (needle : List Char) : List Char → Bool
  | [] => needle.isEmpty
  | hay@(_ :: rest) => needle.isPrefixOf hay || containsSub needle rest

/-- Lookup in an association list modelling `d.get(k, dflt)` for a dict
with `String` keys. -/
def alistGetD (d : List (String × ℚ)) (k : String) (dflt : ℚ) : ℚ :=
  match d.find? (fun p => p.1 = k) with
  | some p => p.2
  | none => dflt

/-! ## Range scorers

`SEOMetrics._normalize_score` (src/seo_metrics.py, 0-1 convention) and
`SEOMetrics._calculate_range_score` (src/seo/seo_metrics.py, 0-100
convention). -/

namespace SeoMetricsMain

/-- Body of `SEOMetrics._normalize_score` (src/seo_metrics.py lines
319-332), before the enclosing `try/except`.  The only statement that can
raise is the division `(value - max_val) / max_val` in the above-range
branch (`max_val == 0` there), hence the single `none` arm; the
below-range division is guarded by `if min_val != 0`. -/
def normalize_score_body (value min_val max_val : ℚ) : Option ℚ :=
  if min_val = max_val then some (if value = 0 then 0 else 1)
  else if value < min_val then some (if min_val ≠ 0 then value / min_val else 0)
  else if max_val < value then
    (if max_val = 0 then none else some (1 - (value - max_val) / max_val))
  else some 1

/-- `SEOMetrics._normalize_score`: the body with its `except Exception:
return 0.0` wrapper. -/
def normalize_score (value min_val max_val : ℚ) : ℚ :=
  (normalize_score_body value min_val max_val).getD 0

end SeoMetricsMain

namespace SeoMetricsSub

/-- `SEOMetrics._calculate_range_score` (src/seo/seo_metrics.py lines
320-328).  There is no exception handler: `value / min_val` raises
`ZeroDivisionError` when `min_val == 0`, and `(value - max_val) / max_val`
raises when `max_val == 0`; both are modelled by `none`. -/
def calculate_range_score (value min_val max_val : ℚ) : Option ℚ :=
  if min_val ≤ value ∧ value ≤ max_val then some 100
  else if value < min_val then
    (if min_val = 0 then none else some (value / min_val * 100))
  else
    (if max_val = 0 then none else some (max 0 (100 - (value - max_val) / max_val * 100)))

end SeoMetricsSub

/-! ## Syllable counting

`ReadabilityAnalyzer._count_syllables` (src/readability.py lines 154-173,
per-word, heuristic fallback branch) and `SEOMetrics._count_syllables`
(src/seo_metrics.py lines 395-415, whole text, one shared counter). -/

/-- The vowel set `'aeiouy'` of both syllable counters. -/
def isVowel (c : Char) : Bool :=
  c = 'a' ∨ c = 'e' ∨ c = 'i' ∨ c = 'o' ∨ c = 'u' ∨ c = 'y'

/-- The transition scan shared by both syllable counters: the number of
indices `i ≥ 1` with `word[i]` a vowel and `word[i-1]` not a vowel.
`prev` is the character at index `i - 1`. -/
def vowelStarts (prev : Char) : List Char → ℕ
  | [] => 0
  | c :: rest => (if isVowel c ∧ ¬ isVowel prev then 1 else 0) + vowelStarts c rest

/-- `word.endswith('e')`. -/
def endsWithE (w : List Char) : Bool :=
  match w.getLast? with
  | some c => c = 'e'
  | none => false

namespace ReadabilityAnalyzer

/-- The heuristic fallback branch of `ReadabilityAnalyzer._count_syllables`
(the `except KeyError` branch; the pronunciation-dictionary branch keys on
external CMU data and is out of scope).  On the empty word `word[0]`
raises `IndexError` (`none`).  The running count is an integer: it is
incremented for the leading vowel, incremented on every vowel-group start,
decremented for a trailing `'e'`, and floored to 1 only when it is exactly
0 at the end. -/
def count_syllables (word : List Char) : Option ℤ :=
  match lowerList word with
  | [] => none
  | c :: rest =>
    let base : ℤ := (if isVowel c then 1 else 0) + vowelStarts c rest
    let afterE : ℤ := if endsWithE (c :: rest) then base - 1 else base
    some (if afterE = 0 then afterE + 1 else afterE)

end ReadabilityAnalyzer

namespace SeoMetricsMain

/-- One word's visit in `SEOMetrics._count_syllables`: the same vowel-group
arithmetic as the per-word heuristic, but applied to the running total
`count` of the whole text, so the trailing-`e` decrement and the
floor-at-zero test see the cumulative count, not the word's own count.
`text.split()` never yields an empty word, so `word[0]` cannot raise. -/
def count_syllables_step (count : ℤ) : List Char → ℤ
  | [] => count
  | c :: rest =>
    let afterVowels : ℤ := count + (if isVowel c then 1 else 0) + vowelStarts c rest
    let afterE : ℤ := if endsWithE (c :: rest) then afterVowels - 1 else afterVowels
    if afterE = 0 then afterE + 1 else afterE

/-- `SEOMetrics._count_syllables` (src/seo_metrics.py lines 395-415): the
text is lowercased, split on whitespace, and folded through
`count_syllables_step` starting from 0. -/
def count_syllables (text : List Char) : ℤ :=
  (splitWs (lowerList text)).foldl count_syllables_step 0

end SeoMetricsMain

/-! ## Readability level tiers

`SEOMetrics._get_readability_level` (src/seo_metrics.py lines 417-437) and
the level chain inside `ReadabilityAnalyzer._calculate_flesch_score`
(src/readability.py lines 87-101). -/

namespace SeoMetricsMain

/-- `SEOMetrics._get_readability_level`.  The body cannot raise, so the
`except` arm returning `"Unknown"` is unreachable and the chain is pure. -/
def get_readability_level (flesch_score : ℚ) : String :=
  if 90 ≤ flesch_score then "Very Easy"
  else if 80 ≤ flesch_score then "Easy"
  else if 70 ≤ flesch_score then "Fairly Easy"
  else if 60 ≤ flesch_score then "Standard"
  else if 50 ≤ flesch_score then "Fairly Difficult"
  else if 30 ≤ flesch_score then "Difficult"
  else if 0 ≤ flesch_score then "Very Difficult"
  else "Unknown"

end SeoMetricsMain

namespace ReadabilityAnalyzer

/-- The readability-level chain of
`ReadabilityAnalyzer._calculate_flesch_score`: its final `else` is
`"Very Difficult"`, with no separate tier for negative scores. -/
def flesch_level (score : ℚ) : String :=
  if 90 ≤ score then "Very Easy"
  else if 80 ≤ score then "Easy"
  else if 70 ≤ score then "Fairly Easy"
  else if 60 ≤ score then "Standard"
  else if 50 ≤ score then "Fairly Difficult"
  else if 30 ≤ score then "Difficult"
  else "Very Difficult"

end ReadabilityAnalyzer

/-! ## Flesch Reading Ease and the readability overall score
(src/readability.py). -/

namespace ReadabilityAnalyzer

/-- Result of `ReadabilityAnalyzer._calculate_flesch_score`.  The guarded
branch returns a dict with only `score`/`explanation`/`is_optimal`, so the
remaining keys are `Option`s.  The formatted `explanation` string is
presentation only and is not modelled. -/
structure FleschResult where
  score : ℚ
  level : Option String
  avg_sentence_length : Option ℚ
  avg_syllables_per_word : Option ℚ
  is_optimal : Bool
deriving DecidableEq, Repr

/-- `ReadabilityAnalyzer._calculate_flesch_score` (src/readability.py lines
65-110).  `countSyll` stands for `self._count_syllables` (the CMU lookup
with heuristic fallback); it is a parameter because the CMU dictionary is
external data.  `sentences` and `words` are the token lists produced by
the external NLTK tokenizers. -/
def calculate_flesch_score (countSyll : List Char → ℤ)
    (sentences words : List (List Char)) : FleschResult :=
  if sentences.isEmpty ∨ words.isEmpty then
    { score := 0, level := none, avg_sentence_length := none,
      avg_syllables_per_word := none, is_optimal := false }
  else
    let avg_sentence_length : ℚ := (words.length : ℚ) / (sentences.length : ℚ)
    let total_syllables : ℤ := (words.map countSyll).sum
    let avg_syllables : ℚ := (total_syllables : ℚ) / (words.length : ℚ)
    let score : ℚ := 206.835 - 1.015 * avg_sentence_length - 84.6 * avg_syllables
    { score := score, level := some (flesch_level score),
      avg_sentence_length := some avg_sentence_length,
      avg_syllables_per_word := some avg_syllables,
      is_optimal := 60 ≤ score ∧ score ≤ 80 }

/-- The per-word syllable counter restricted to the heuristic fallback,
totalised for use as the `countSyll` argument (the `none` case cannot
occur on tokenizer output, whose tokens are non-empty). -/
def count_syllables_heuristic (word : List Char) : ℤ :=
  (count_syllables word).getD 0

/-- `ReadabilityAnalyzer._get_overall_score_explanation` (src/readability.py
lines 222-230). -/
def get_overall_score_explanation (score : ℚ) : String :=
  if 0.8 ≤ score then "Excellent readability"
  else if 0.6 ≤ score then "Good readability"
  else if 0.4 ≤ score then "Fair readability"
  else "Poor readability"

/-- Result of `ReadabilityAnalyzer._compute_overall_score`. -/
structure OverallScoreResult where
  score : ℚ
  flesch_component : ℚ
  sentence_length_component : ℚ
  lexical_component : ℚ
  explanation : String
deriving DecidableEq, Repr

/-- `ReadabilityAnalyzer._compute_overall_score` (src/readability.py lines
175-204).  The function reads exactly the `is_optimal` flag of each of the
three metric dicts, maps it to 1.0 or 0.5, and blends with weights
flesch 0.4, sentence_length 0.3, lexical 0.3. -/
def compute_overall_score (flesch_opt sentence_opt lexical_opt : Bool) :
    OverallScoreResult :=
  let flesch_score : ℚ := if flesch_opt then 1 else 0.5
  let sentence_score : ℚ := if sentence_opt then 1 else 0.5
  let lexical_score : ℚ := if lexical_opt then 1 else 0.5
  let overall : ℚ := flesch_score * 0.4 + sentence_score * 0.3 + lexical_score * 0.3
  { score := overall, flesch_component := flesch_score,
    sentence_length_component := sentence_score,
    lexical_component := lexical_score,
    explanation := get_overall_score_explanation overall }

end ReadabilityAnalyzer

/-! ## The analysis-input document

Both `SEOMetrics` classes consume the nested dictionary produced by
`SEOAnalyzer`.  Every key that either class reads is modelled; a key is an
`Option` field so that sparse documents (missing keys) are representable.
`d['k']` is an `Option.bind`, `d.get('k', default)` an `Option.getD`. -/

/-- `meta_tags['title']` / `meta_tags['meta_description']` sub-dicts. -/
structure TagInfo where
  content : Option (List Char)
  length : Option ℚ
  found : Option Bool
deriving DecidableEq, Repr

/-- The `meta_tags` section. -/
structure MetaTags where
  title : Option TagInfo
  meta_description : Option TagInfo
deriving DecidableEq, Repr

/-- The `content_analysis` section. -/
structure ContentAnalysis where
  content_length : Option ℚ
  heading_structure : Option (List (String × ℚ))
  paragraph_count : Option ℚ
  avg_paragraph_length : Option ℚ
  text_html_ratio : Option ℚ
  main_content : Option (List Char)
deriving DecidableEq, Repr

/-- The `keyword_analysis` section: `top_keywords` maps each keyword to a
data dict whose `density` key may itself be missing. -/
structure KeywordAnalysis where
  top_keywords : Option (List (List Char × Option ℚ))
deriving DecidableEq, Repr

/-- One entry of a `links` list. -/
structure LinkEntry where
  text : Option (List Char)
deriving DecidableEq, Repr

/-- `link_analysis['internal_links']` / `link_analysis['external_links']`. -/
structure LinkGroup where
  count : Option ℚ
  links : Option (List LinkEntry)
deriving DecidableEq, Repr

/-- The `link_analysis` section. -/
structure LinkAnalysis where
  internal_links : Option LinkGroup
  external_links : Option LinkGroup
deriving DecidableEq, Repr

/-- The `image_analysis` section. -/
structure ImageAnalysis where
  total_images : Option ℚ
  images_with_alt : Option ℚ
  images_with_dimensions : Option ℚ
deriving DecidableEq, Repr

/-- The `technical_seo` section. -/
structure TechnicalSeo where
  has_viewport : Option Bool
  has_favicon : Option Bool
  has_structured_data : Option Bool
  has_analytics : Option Bool
  has_robots_txt : Option Bool
deriving DecidableEq, Repr

/-- The whole analysis document. -/
structure SeoAnalysis where
  content_analysis : Option ContentAnalysis
  meta_tags : Option MetaTags
  keyword_analysis : Option KeywordAnalysis
  link_analysis : Option LinkAnalysis
  image_analysis : Option ImageAnalysis
  technical_seo : Option TechnicalSeo
deriving DecidableEq, Repr

/-- The fully-sparse document `{}`: every section missing. -/
def emptyAnalysis : SeoAnalysis := ⟨none, none, none, none, none, none⟩

/-- A `TagInfo` with every key missing (`{}`). -/
def emptyTagInfo : TagInfo := ⟨none, none, none⟩

/-! ## `SEOMetrics` of src/seo_metrics.py (0-1 convention) -/

namespace SeoMetricsMain

/-- `self.stop_words` (src/seo_metrics.py lines 13-18). -/
def stop_words : List (List Char) :=
  ["the".data, "be".data, "to".data, "of".data, "and".data, "a".data,
   "in".data, "that".data, "have".data, "i".data,
   "it".data, "for".data, "not".data, "on".data, "with".data, "he".data,
   "as".data, "you".data, "do".data, "at".data,
   "this".data, "but".data, "his".data, "by".data, "from".data,
   "they".data, "we".data, "say".data, "her".data, "she".data,
   "or".data, "an".data, "will".data, "my".data, "one".data, "all".data,
   "would".data, "there".data, "their".data, "what".data]

/-- Membership in `self.stop_words`. -/
def isStopWord (w : List Char) : Bool := stop_words.contains w

/-- `SEOMetrics._calculate_heading_score` (lines 334-355).  The body of its
`try` cannot raise (every lookup is a `.get` with default). -/
def calculate_heading_score (headings : List (String × ℚ)) : ℚ :=
  let has_h1 := 0 < alistGetD headings "h1" 0
  let has_h2 := 0 < alistGetD headings "h2" 0
  let total_headings := (headings.map (fun p => p.2)).sum
  let heading_density := if 0 < total_headings then total_headings / 100 else 0
  let hierarchy_score : ℚ := if has_h1 ∧ has_h2 then 1 else 0.5
  let density_score := normalize_score heading_density 0.1 0.3
  (hierarchy_score + density_score) / 2

/-- `SEOMetrics._calculate_paragraph_score` (lines 357-369). -/
def calculate_paragraph_score (content : ContentAnalysis) : ℚ :=
  let paragraph_count := content.paragraph_count.getD 0
  let avg_length := content.avg_paragraph_length.getD 0
  let count_score := normalize_score paragraph_count 3 10
  let length_score := normalize_score avg_length 50 150
  (count_score + length_score) / 2

/-- `SEOMetrics._calculate_meta_score` (lines 371-393). -/
def calculate_meta_score (meta : MetaTags) : ℚ :=
  let title := meta.title.getD emptyTagInfo
  let description := meta.meta_description.getD emptyTagInfo
  let title_score := if title.found.getD false then normalize_score (title.length.getD 0) 30 60 else 0
  let desc_score :=
    if description.found.getD false then normalize_score (description.length.getD 0) 120 160 else 0
  (title_score + desc_score) / 2

/-- Output of `SEOMetrics._compute_content_quality`. -/
structure ContentQualityResult where
  content_length_score : ℚ
  heading_structure_score : ℚ
  paragraph_structure_score : ℚ
  text_html_ratio_score : ℚ
  overall_content_score : ℚ
deriving DecidableEq, Repr

/-- `_get_default_metrics()['content_quality']`. -/
def default_content_quality : ContentQualityResult := ⟨0, 0, 0, 0, 0⟩

/-- `try` body of `SEOMetrics._compute_content_quality` (lines 106-140).
`analysis['content_analysis']` and `analysis['meta_tags']` are direct
subscripts and raise `KeyError` on a sparse document; everything below
them uses `.get` defaults. -/
def compute_content_quality_body (analysis : SeoAnalysis) : Option ContentQualityResult := do
  let content ← analysis.content_analysis
  let _meta ← analysis.meta_tags
  let content_length := content.content_length.getD 0
  let content_length_score := normalize_score content_length 300 2500
  let headings := content.heading_structure.getD []
  let heading_score := calculate_heading_score headings
  let paragraph_score := calculate_paragraph_score content
  some
    { content_length_score := content_length_score
      heading_structure_score := heading_score
      paragraph_structure_score := paragraph_score
      text_html_ratio_score := normalize_score (content.text_html_ratio.getD 0) 15 70
      overall_content_score := (content_length_score + heading_score + paragraph_score) / 3 }

/-- `SEOMetrics._compute_content_quality` with its `except` arm. -/
def compute_content_quality (analysis : SeoAnalysis) : ContentQualityResult :=
  (compute_content_quality_body analysis).getD default_content_quality

/-- Output of `SEOMetrics._compute_technical_score`. -/
structure TechnicalScoreResult where
  meta_tags_score : ℚ
  technical_elements_score : ℚ
  overall_technical_score : ℚ
deriving DecidableEq, Repr

/-- `_get_default_metrics()['technical_score']`. -/
def default_technical_score : TechnicalScoreResult := ⟨0, 0, 0⟩

/-- `try` body of `SEOMetrics._compute_technical_score` (lines 142-169);
the five `technical[...]` subscripts are direct and can raise. -/
def compute_technical_score_body (analysis : SeoAnalysis) : Option TechnicalScoreResult := do
  let technical ← analysis.technical_seo
  let meta ← analysis.meta_tags
  let meta_score := calculate_meta_score meta
  let viewport ← technical.has_viewport
  let favicon ← technical.has_favicon
  let structured_data ← technical.has_structured_data
  let analytics ← technical.has_analytics
  let robots_txt ← technical.has_robots_txt
  let technical_score : ℚ :=
    (([viewport, favicon, structured_data, analytics, robots_txt].count true : ℚ)) / 5
  some
    { meta_tags_score := meta_score
      technical_elements_score := technical_score
      overall_technical_score := (meta_score + technical_score) / 2 }

/-- `SEOMetrics._compute_technical_score` with its `except` arm. -/
def compute_technical_score (analysis : SeoAnalysis) : TechnicalScoreResult :=
  (compute_technical_score_body analysis).getD default_technical_score

/-- Output of `SEOMetrics._compute_readability`. -/
structure ReadabilityResult where
  flesch_reading_ease : ℚ
  avg_sentence_length : ℚ
  avg_word_length : ℚ
  readability_level : String
deriving DecidableEq, Repr

/-- `_get_default_metrics()['readability']`. -/
def default_readability : ReadabilityResult := ⟨0, 0, 0, "Unknown"⟩

/-- `try` body of `SEOMetrics._compute_readability` (lines 171-199).
`sentences = len(re.split(r'[.!?]+', text))` is the number of `[.!?]+`
runs plus one (so it is never zero); `words = len(text.split())`. -/
def compute_readability_body (analysis : SeoAnalysis) : Option ReadabilityResult := do
  let content ← analysis.content_analysis
  let text := content.main_content.getD []
  let sentences : ℚ := (sentenceRuns text : ℚ) + 1
  let words : ℚ := ((splitWs text).length : ℚ)
  let syllables : ℤ := count_syllables text
  let flesch_score : ℚ :=
    if 0 < sentences ∧ 0 < words then
      206.835 - 1.015 * (words / sentences) - 84.6 * ((syllables : ℚ) / words)
    else 0
  some
    { flesch_reading_ease := flesch_score
      avg_sentence_length := if 0 < sentences then words / sentences else 0
      avg_word_length :=
        if 0 < words then ((splitWs text).map (fun w => (w.length : ℚ))).sum / words else 0
      readability_level := get_readability_level flesch_score }

/-- `SEOMetrics._compute_readability` with its `except` arm. -/
def compute_readability (analysis : SeoAnalysis) : ReadabilityResult :=
  (compute_readability_body analysis).getD default_readability

/-- `SEOMetrics._get_keywords_in_text` (lines 439-445). -/
def get_keywords_in_text (text : List Char) : List (List Char) :=
  (wordTokens (lowerList text)).filter (fun w => !isStopWord w && decide (2 < w.length))

/-- Output of `SEOMetrics._compute_keyword_optimization`. -/
structure KeywordOptimizationResult where
  keyword_density_scores : List (List Char × ℚ)
  keywords_in_title : List (List Char)
  keywords_in_meta : List (List Char)
  keyword_optimization_score : ℚ
deriving DecidableEq, Repr

/-- `_get_default_metrics()['keyword_optimization']`. -/
def default_keyword_optimization : KeywordOptimizationResult := ⟨[], [], [], 0⟩

/-- `try` body of `SEOMetrics._compute_keyword_optimization` (lines
201-228); `data['density']` is a direct subscript and can raise. -/
def compute_keyword_optimization_body (analysis : SeoAnalysis) :
    Option KeywordOptimizationResult := do
  let keywords ← analysis.keyword_analysis
  let meta ← analysis.meta_tags
  let density_scores ← (keywords.top_keywords.getD []).mapM (fun p => do
    let density ← p.2
    some (p.1, normalize_score density 0.5 3.0))
  let title_keywords := get_keywords_in_text ((meta.title.getD emptyTagInfo).content.getD [])
  let meta_keywords :=
    get_keywords_in_text ((meta.meta_description.getD emptyTagInfo).content.getD [])
  some
    { keyword_density_scores := density_scores
      keywords_in_title := title_keywords
      keywords_in_meta := meta_keywords
      keyword_optimization_score :=
        if density_scores ≠ [] then
          (density_scores.map (fun p => p.2)).sum / (density_scores.length : ℚ)
        else 0 }

/-- `SEOMetrics._compute_keyword_optimization` with its `except` arm. -/
def compute_keyword_optimization (analysis : SeoAnalysis) : KeywordOptimizationResult :=
  (compute_keyword_optimization_body analysis).getD default_keyword_optimization

/-- `SEOMetrics._calculate_link_text_score` (lines 447-463).  `any(...)`
over the words of an empty link text is `False`, giving the 0.5 arm. -/
def calculate_link_text_score (links : List LinkEntry) : ℚ :=
  if links = [] then 0
  else
    let scores := links.map (fun link =>
      let text := link.text.getD []
      let length_score := normalize_score (text.length : ℚ) 3 10
      let keyword_score : ℚ := if (splitWs text).any (fun w => !isStopWord w) then 1 else 0.5
      (length_score + keyword_score) / 2)
    scores.sum / (scores.length : ℚ)

/-- Output of `SEOMetrics._compute_link_quality`. -/
structure LinkQualityResult where
  internal_external_ratio : ℚ
  internal_link_text_score : ℚ
  external_link_text_score : ℚ
  overall_link_quality_score : ℚ
deriving DecidableEq, Repr

/-- `_get_default_metrics()['link_quality']`. -/
def default_link_quality : LinkQualityResult := ⟨0, 0, 0, 0⟩

/-- `try` body of `SEOMetrics._compute_link_quality` (lines 230-254); the
`links[...]` and `...['count']` / `...['links']` subscripts are direct. -/
def compute_link_quality_body (analysis : SeoAnalysis) : Option LinkQualityResult := do
  let links ← analysis.link_analysis
  let internal ← links.internal_links
  let external ← links.external_links
  let internal_count ← internal.count
  let external_count ← external.count
  let total_links := internal_count + external_count
  let internal_ratio := if 0 < total_links then internal_count / total_links else 0
  let internal_links ← internal.links
  let external_links ← external.links
  let internal_text_score := calculate_link_text_score internal_links
  let external_text_score := calculate_link_text_score external_links
  some
    { internal_external_ratio := internal_ratio
      internal_link_text_score := internal_text_score
      external_link_text_score := external_text_score
      overall_link_quality_score := (internal_text_score + external_text_score) / 2 }

/-- `SEOMetrics._compute_link_quality` with its `except` arm. -/
def compute_link_quality (analysis : SeoAnalysis) : LinkQualityResult :=
  (compute_link_quality_body analysis).getD default_link_quality

/-- Output of `SEOMetrics._compute_image_optimization`. -/
structure ImageOptimizationResult where
  alt_text_score : ℚ
  dimensions_score : ℚ
  overall_image_score : ℚ
deriving DecidableEq, Repr

/-- `_get_default_metrics()['image_optimization']`. -/
def default_image_optimization : ImageOptimizationResult := ⟨0, 0, 0⟩

/-- `try` body of `SEOMetrics._compute_image_optimization` (lines 256-277):
`total_images` uses a `.get` default, but when it is positive the
`images['images_with_alt']` / `images['images_with_dimensions']`
subscripts are direct. -/
def compute_image_optimization_body (analysis : SeoAnalysis) :
    Option ImageOptimizationResult := do
  let images ← analysis.image_analysis
  let total_images := images.total_images.getD 0
  let scores ←
    if 0 < total_images then do
      let with_alt ← images.images_with_alt
      let with_dimensions ← images.images_with_dimensions
      some (with_alt / total_images, with_dimensions / total_images)
    else some ((0 : ℚ), (0 : ℚ))
  some
    { alt_text_score := scores.1
      dimensions_score := scores.2
      overall_image_score := (scores.1 + scores.2) / 2 }

/-- `SEOMetrics._compute_image_optimization` with its `except` arm. -/
def compute_image_optimization (analysis : SeoAnalysis) : ImageOptimizationResult :=
  (compute_image_optimization_body analysis).getD default_image_optimization

/-- Output of `SEOMetrics._compute_overall_score`: the score plus its
`score_breakdown` map. -/
structure OverallScore where
  overall_score : ℚ
  content_quality : ℚ
  technical_score : ℚ
  keyword_score : ℚ
  link_score : ℚ
  image_score : ℚ
deriving DecidableEq, Repr

/-- `_get_default_metrics()['overall_score']`. -/
def default_overall_score : OverallScore := ⟨0, 0, 0, 0, 0, 0⟩

/-- `SEOMetrics._compute_overall_score` (lines 279-317).  It re-runs the
five wrapped sub-scorers (each of which swallows its own exceptions), so
its `try` body cannot raise and the function is total.  Weights: content
0.3, technical 0.2, keyword 0.2, link 0.15, image 0.15. -/
def compute_overall_score (analysis : SeoAnalysis) : OverallScore :=
  let content_quality := (compute_content_quality analysis).overall_content_score
  let technical_score := (compute_technical_score analysis).overall_technical_score
  let keyword_score := (compute_keyword_optimization analysis).keyword_optimization_score
  let link_score := (compute_link_quality analysis).overall_link_quality_score
  let image_score := (compute_image_optimization analysis).overall_image_score
  let overall := content_quality * 0.3 + technical_score * 0.2 + keyword_score * 0.2 +
    link_score * 0.15 + image_score * 0.15
  { overall_score := overall
    content_quality := content_quality
    technical_score := technical_score
    keyword_score := keyword_score
    link_score := link_score
    image_score := image_score }

/-- Output of `SEOMetrics.compute_metrics`. -/
structure Metrics where
  content_quality : ContentQualityResult
  technical_score : TechnicalScoreResult
  readability : ReadabilityResult
  keyword_optimization : KeywordOptimizationResult
  link_quality : LinkQualityResult
  image_optimization : ImageOptimizationResult
  overall_score : OverallScore
deriving DecidableEq, Repr

/-- `SEOMetrics._get_default_metrics` (lines 56-104). -/
def get_default_metrics : Metrics :=
  { content_quality := default_content_quality
    technical_score := default_technical_score
    readability := default_readability
    keyword_optimization := default_keyword_optimization
    link_quality := default_link_quality
    image_optimization := default_image_optimization
    overall_score := default_overall_score }

/-- `SEOMetrics.compute_metrics` (lines 32-54).  Every entry is one of the
wrapped sub-scorers, each of which replaces its own failures by defaults,
so the outer `except` arm (returning `_get_default_metrics()`) is
unreachable and the aggregator is a total function. -/
def compute_metrics (analysis : SeoAnalysis) : Metrics :=
  { content_quality := compute_content_quality analysis
    technical_score := compute_technical_score analysis
    readability := compute_readability analysis
    keyword_optimization := compute_keyword_optimization analysis
    link_quality := compute_link_quality analysis
    image_optimization := compute_image_optimization analysis
    overall_score := compute_overall_score analysis }

end SeoMetricsMain

/-! ## `SEOMetrics` of src/seo/seo_metrics.py (0-100 convention)

This class has no exception handlers at all, so every direct dictionary
subscript is an `Option.bind`, and `compute_metrics` and
`_compute_overall_score` call each other unconditionally.  The mutual
recursion is modelled with a fuel parameter bounding the number of nested
`compute_metrics` activations; exhausting any finite fuel (`none` from the
fuel-0 case) models the Python `RecursionError`. -/

namespace SeoMetricsSub

/-- A `{'value': v, 'score': s, 'optimal_range': r}` sub-dict. -/
structure ScoredValue where
  value : ℚ
  score : ℚ
  optimal_range : ℚ × ℚ
deriving DecidableEq, Repr

/-- A `{'length': l, 'score': s, 'optimal_range': r}` sub-dict. -/
structure LengthScored where
  length : ℚ
  score : ℚ
  optimal_range : ℚ × ℚ
deriving DecidableEq, Repr

/-- A `{'count': c, 'score': s, 'optimal_range': r}` sub-dict. -/
structure CountScored where
  count : ℚ
  score : ℚ
  optimal_range : ℚ × ℚ
deriving DecidableEq, Repr

/-- Output of `SEOMetrics._analyze_content_quality`. -/
structure ContentQuality where
  content_length : ScoredValue
  text_html_ratio : ScoredValue
  heading_structure : List (String × ℚ)
  paragraph_count : ℚ
  avg_paragraph_length : ℚ
deriving DecidableEq, Repr

/-- `self.optimal_ranges['heading_count']` (h1 (1,1), h2 (2,5), h3 (3,8));
`none` for heading levels absent from the table. -/
def heading_count_range (h : String) : Option (ℚ × ℚ) :=
  if h = "h1" then some (1, 1)
  else if h = "h2" then some (2, 5)
  else if h = "h3" then some (3, 8)
  else none

/-- The heading loop of `_analyze_content_quality`: levels present in the
`heading_count` table are range-scored, the others are skipped. -/
def heading_structure_scores : List (String × ℚ) → Option (List (String × ℚ))
  | [] => some []
  | (h, count) :: rest =>
    match heading_count_range h with
    | none => heading_structure_scores rest
    | some r => do
      let s ← calculate_range_score count r.1 r.2
      let tail ← heading_structure_scores rest
      some ((h, s) :: tail)

/-- `SEOMetrics._analyze_content_quality` (src/seo/seo_metrics.py lines
49-91).  All subscripts are direct: a sparse document raises `KeyError`
(`none`). -/
def analyze_content_quality (a : SeoAnalysis) : Option ContentQuality := do
  let content ← a.content_analysis
  let _meta ← a.meta_tags
  let content_length ← content.content_length
  let content_length_score ← calculate_range_score content_length 300 2500
  let text_ratio ← content.text_html_ratio
  let text_ratio_score ← calculate_range_score text_ratio 20 70
  let headings ← content.heading_structure
  let heading_scores ← heading_structure_scores headings
  let paragraph_count ← content.paragraph_count
  let avg_paragraph_length ← content.avg_paragraph_length
  some
    { content_length := ⟨content_length, content_length_score, (300, 2500)⟩
      text_html_ratio := ⟨text_ratio, text_ratio_score, (20, 70)⟩
      heading_structure := heading_scores
      paragraph_count := paragraph_count
      avg_paragraph_length := avg_paragraph_length }

/-- Output of `SEOMetrics._compute_technical_score` (the five technical
element flags plus the derived scores). -/
structure TechnicalResult where
  title : LengthScored
  meta_description : LengthScored
  viewport : Bool
  favicon : Bool
  structured_data : Bool
  analytics : Bool
  robots_txt : Bool
  technical_score : ℚ
deriving DecidableEq, Repr

/-- `SEOMetrics._compute_technical_score` (lines 93-134). -/
def compute_technical_score (a : SeoAnalysis) : Option TechnicalResult := do
  let technical ← a.technical_seo
  let meta ← a.meta_tags
  let title ← meta.title
  let title_length ← title.length
  let title_score ← calculate_range_score title_length 50 60
  let md ← meta.meta_description
  let meta_desc_length ← md.length
  let meta_desc_score ← calculate_range_score meta_desc_length 120 160
  let viewport ← technical.has_viewport
  let favicon ← technical.has_favicon
  let structured_data ← technical.has_structured_data
  let analytics ← technical.has_analytics
  let robots_txt ← technical.has_robots_txt
  some
    { title := ⟨title_length, title_score, (50, 60)⟩
      meta_description := ⟨meta_desc_length, meta_desc_score, (120, 160)⟩
      viewport := viewport, favicon := favicon, structured_data := structured_data
      analytics := analytics, robots_txt := robots_txt
      technical_score :=
        (([viewport, favicon, structured_data, analytics, robots_txt].count true : ℚ)) / 5 * 100 }

/-- One entry of the `keyword_usage` map of
`SEOMetrics._analyze_keyword_optimization`. -/
structure KeywordUsage where
  keyword : List Char
  density : ℚ
  in_title : Bool
  in_meta_description : Bool
  score : ℚ
deriving DecidableEq, Repr

/-- Output of `SEOMetrics._analyze_keyword_optimization`. -/
structure KeywordResult where
  keyword_usage : List KeywordUsage
  total_keywords : ℕ
  keywords_in_title : ℕ
  keywords_in_meta : ℕ
deriving DecidableEq, Repr

/-- `SEOMetrics._analyze_keyword_optimization` (lines 136-163).
`title_words` and `meta_desc_words` are Python `set`s of `\w+` tokens,
modelled as deduplicated token lists. -/
def analyze_keyword_optimization (a : SeoAnalysis) : Option KeywordResult := do
  let keywords ← a.keyword_analysis
  let meta ← a.meta_tags
  let title ← meta.title
  let title_content ← title.content
  let md ← meta.meta_description
  let md_content ← md.content
  let title_words := (wordTokens (lowerList title_content)).dedup
  let meta_desc_words := (wordTokens (lowerList md_content)).dedup
  let top ← keywords.top_keywords
  let usage ← top.mapM (fun p => do
    let density ← p.2
    let score ← calculate_range_score density 1 3
    some
      { keyword := p.1, density := density
        in_title := decide (p.1 ∈ title_words)
        in_meta_description := decide (p.1 ∈ meta_desc_words)
        score := score })
  some
    { keyword_usage := usage, total_keywords := top.length
      keywords_in_title := title_words.length, keywords_in_meta := meta_desc_words.length }

/-- Output of `SEOMetrics._analyze_link_quality`. -/
structure LinkResult where
  internal_links : CountScored
  external_links : CountScored
  internal_texts : List (List Char)
  external_texts : List (List Char)
deriving DecidableEq, Repr

/-- `SEOMetrics._analyze_link_quality` (lines 165-202). -/
def analyze_link_quality (a : SeoAnalysis) : Option LinkResult := do
  let links ← a.link_analysis
  let internal ← links.internal_links
  let internal_count ← internal.count
  let internal_score ← calculate_range_score internal_count 5 20
  let external ← links.external_links
  let external_count ← external.count
  let external_score ← calculate_range_score external_count 2 10
  let internal_link_list ← internal.links
  let internal_texts ← internal_link_list.mapM (fun l => l.text)
  let external_link_list ← external.links
  let external_texts ← external_link_list.mapM (fun l => l.text)
  some
    { internal_links := ⟨internal_count, internal_score, (5, 20)⟩
      external_links := ⟨external_count, external_score, (2, 10)⟩
      internal_texts := internal_texts, external_texts := external_texts }

/-- Output of `SEOMetrics._analyze_image_optimization`. -/
structure ImageResult where
  alt_text_percentage : ℚ
  alt_text_score : ℚ
  with_dimensions : ℚ
  total : ℚ
deriving DecidableEq, Repr

/-- `SEOMetrics._analyze_image_optimization` (lines 204-225).  The
`images['images_with_alt']` subscript is only evaluated when
`total_images > 0`. -/
def analyze_image_optimization (a : SeoAnalysis) : Option ImageResult := do
  let images ← a.image_analysis
  let total ← images.total_images
  let alt_text_percentage ←
    if 0 < total then do
      let with_alt ← images.images_with_alt
      some (with_alt / total * 100)
    else some (0 : ℚ)
  let alt_text_score ← calculate_range_score alt_text_percentage 80 100
  let with_dimensions ← images.images_with_dimensions
  some
    { alt_text_percentage := alt_text_percentage, alt_text_score := alt_text_score
      with_dimensions := with_dimensions, total := total }

/-- Output of `SEOMetrics._analyze_readability` (the seo-module one, which
only range-scores the average paragraph length). -/
structure ParagraphReadability where
  average : ℚ
  score : ℚ
deriving DecidableEq, Repr

/-- `SEOMetrics._analyze_readability` (lines 227-244). -/
def analyze_readability (a : SeoAnalysis) : Option ParagraphReadability := do
  let content ← a.content_analysis
  let avg_paragraph_length ← content.avg_paragraph_length
  let score ← calculate_range_score avg_paragraph_length 50 150
  some { average := avg_paragraph_length, score := score }

/-- One recommendation: its `type` and `priority`; the formatted message
string is presentation only and is not modelled. -/
structure Recommendation where
  rtype : String
  priority : String
deriving DecidableEq, Repr

/-- `SEOMetrics._generate_recommendations` (lines 246-294). -/
def generate_recommendations (a : SeoAnalysis) : Option (List Recommendation) := do
  let meta ← a.meta_tags
  let title ← meta.title
  let title_length ← title.length
  let title_recs := if ¬ (50 ≤ title_length ∧ title_length ≤ 60) then [⟨"title", "high"⟩] else []
  let md ← meta.meta_description
  let meta_desc_length ← md.length
  let meta_recs :=
    if ¬ (120 ≤ meta_desc_length ∧ meta_desc_length ≤ 160) then
      [(⟨"meta_description", "high"⟩ : Recommendation)]
    else []
  let images ← a.image_analysis
  let total ← images.total_images
  let image_recs ←
    if 0 < total then do
      let with_alt ← images.images_with_alt
      some (if with_alt / total * 100 < 80 then [(⟨"images", "medium"⟩ : Recommendation)] else [])
    else some ([] : List Recommendation)
  let technical ← a.technical_seo
  let has_viewport ← technical.has_viewport
  let viewport_recs := if ¬ has_viewport then [(⟨"technical", "high"⟩ : Recommendation)] else []
  let has_structured ← technical.has_structured_data
  let structured_recs :=
    if ¬ has_structured then [(⟨"technical", "medium"⟩ : Recommendation)] else []
  some (title_recs ++ meta_recs ++ image_recs ++ viewport_recs ++ structured_recs)

/-- Output of `SEOMetrics.compute_metrics`. -/
structure MetricsResult where
  content_quality : ContentQuality
  technical_score : TechnicalResult
  keyword_optimization : KeywordResult
  link_quality : LinkResult
  image_optimization : ImageResult
  readability : ParagraphReadability
  recommendations : List Recommendation
  overall_score : ℚ
deriving DecidableEq, Repr

/-- Python's `round(x, 2)` on an exact rational: round half to even at two
decimal places.  (It is only reached from `_compute_overall_score`, which
never returns; see `compute_metrics_fuel`.) -/
def pyRound2 (q : ℚ) : ℚ :=
  let x := q * 100
  let f : ℤ := ⌊x⌋
  if x - f < 1 / 2 then f / 100
  else if 1 / 2 < x - f then (f + 1) / 100
  else (if f % 2 = 0 then f else f + 1) / 100

/-- The part of `SEOMetrics._compute_overall_score` (lines 296-318) after
its `self.compute_metrics(seo_analysis)` call: the weighted blend of the
already-computed metrics (weights content 0.3, technical 0.25, keyword
0.2, link 0.15, image 0.1).  Dividing by `len(keyword_usage)` raises
`ZeroDivisionError` when the keyword table is empty. -/
def overall_from_metrics (m : MetricsResult) : Option ℚ :=
  if m.keyword_optimization.keyword_usage.length = 0 then none
  else some (pyRound2 (
    m.content_quality.text_html_ratio.score * 0.3 +
    m.technical_score.technical_score * 0.25 +
    ((m.keyword_optimization.keyword_usage.map (fun k => k.score)).sum /
      (m.keyword_optimization.keyword_usage.length : ℚ)) * 0.2 +
    (m.link_quality.internal_links.score + m.link_quality.external_links.score) / 2 * 0.15 +
    m.image_optimization.alt_text_score * 0.1))

/-- `SEOMetrics.compute_metrics` (lines 28-47), with fuel.  The
`overall_score` entry evaluates `self._compute_overall_score(seo_analysis)`,
which immediately calls `self.compute_metrics(seo_analysis)` again —
hence the recursive call on smaller fuel. -/
def compute_metrics_fuel : ℕ → SeoAnalysis → Option MetricsResult
  | 0, _ => none
  | n + 1, a => do
    let content_quality ← analyze_content_quality a
    let technical_score ← compute_technical_score a
    let keyword_optimization ← analyze_keyword_optimization a
    let link_quality ← analyze_link_quality a
    let image_optimization ← analyze_image_optimization a
    let readability ← analyze_readability a
    let recommendations ← generate_recommendations a
    let inner_metrics ← compute_metrics_fuel n a
    let overall_score ← overall_from_metrics inner_metrics
    some
      { content_quality := content_quality, technical_score := technical_score
        keyword_optimization := keyword_optimization, link_quality := link_quality
        image_optimization := image_optimization, readability := readability
        recommendations := recommendations, overall_score := overall_score }

/-- `SEOMetrics._compute_overall_score` (lines 296-318), with fuel: it
runs `compute_metrics` and blends the result. -/
def compute_overall_score_fuel (n : ℕ) (a : SeoAnalysis) : Option ℚ :=
  match n with
  | 0 => none
  | n + 1 => do
    let metrics ← compute_metrics_fuel n a
    overall_from_metrics metrics

end SeoMetricsSub

/-! ## `CrawlabilityAnalyzer._analyze_bot_directive` (src/crawlability.py
lines 249-302)

The regex operations of the source are modelled directly on character
lists:
* `user_agent.lower() in robots_content.lower()` is `containsSub` over
  lowered lists;
* `re.search(rf"(?i)User-agent:\s*{ua}.*?(?=User-agent:|$)", text,
  re.DOTALL)` is `findSection`: the first position where the
  case-insensitive literal `User-agent:`, a maximal whitespace run and
  the alias match (the aliases of the registry begin with non-whitespace
  characters, so the greedy `\s*` is exactly maximal munch), followed by
  the shortest `DOTALL` tail whose end sits at a case-insensitive
  `User-agent:` occurrence, at end of text, or just before a final
  newline (the positions accepted by the `(?=User-agent:|$)` lookahead);
* `re.findall(r"Disallow:\s*(.*)", section)` is `findDisallows`
  (case-sensitive, each capture runs to end of line);
* `re.search(r"Crawl-delay:\s*(\d+)", section)` is `findCrawlDelay`. -/

namespace CrawlabilityAnalyzer

/-- The literal `User-agent:` as characters. -/
def uaLit : List Char := "User-agent:".data

/-- Case-insensitive literal prefix test. -/
def ciPrefix (lit s : List Char) : Bool :=
  lowerList (s.take lit.length) = lowerList lit

/-- The lazy `.*?(?=User-agent:|$)` tail (with `re.DOTALL`): consume
characters up to the first position where `User-agent:` starts
(case-insensitively), where the text ends, or just before a final
newline. -/
def takeSection : List Char → List Char
  | [] => []
  | l@(c :: rest) =>
    if ciPrefix uaLit l then []
    else if l = ['\n'] then []
    else c :: takeSection rest

/-- Try to match the section pattern anchored at the head of `s`;
`some` returns the regex match `group(0)`. -/
def matchSectionAt (ua s : List Char) : Option (List Char) :=
  if ciPrefix uaLit s then
    let afterUA := s.drop uaLit.length
    let spaces := afterUA.takeWhile isSpaceChar
    let afterSpaces := afterUA.drop spaces.length
    if ciPrefix ua afterSpaces then
      some (s.take (uaLit.length + spaces.length + ua.length) ++
        takeSection (afterSpaces.drop ua.length))
    else none
  else none

/-- `re.search` for the section pattern: the match at the leftmost
possible start position. -/
def findSection (ua : List Char) : List Char → Option (List Char)
  | [] => none
  | s@(_ :: rest) =>
    match matchSectionAt ua s with
    | some sec => some sec
    | none => findSection ua rest

/-- The literal `Disallow:` as characters. -/
def disallowLit : List Char := "Disallow:".data

/-- `re.findall(r"Disallow:\s*(.*)", section)`, fuelled: all
non-overlapping matches, each capturing the rest of the line after the
greedy `\s*`, resuming the scan after the consumed match.  Every step
strictly shortens the text, so any fuel of at least `s.length + 1`
computes the full scan. -/
def findDisallowsFuel : ℕ → List Char → List (List Char)
  | 0, _ => []
  | _, [] => []
  | fuel + 1, s@(_ :: rest) =>
    if disallowLit.isPrefixOf s then
      let afterSpaces := (s.drop disallowLit.length).dropWhile isSpaceChar
      let captured := afterSpaces.takeWhile (fun c => c ≠ '\n')
      captured :: findDisallowsFuel fuel (afterSpaces.drop captured.length)
    else findDisallowsFuel fuel rest

/-- `re.findall(r"Disallow:\s*(.*)", section)`. -/
def findDisallows (s : List Char) : List (List Char) :=
  findDisallowsFuel (s.length + 1) s

/-- The literal `Crawl-delay:` as characters. -/
def crawlDelayLit : List Char := "Crawl-delay:".data

/-- Decimal digits to a natural number. -/
def digitsToNat (ds : List Char) : ℕ :=
  ds.foldl (fun acc c => acc * 10 + (c.toNat - 48)) 0

/-- `re.search(r"Crawl-delay:\s*(\d+)", section)`: the first position
where the literal, a maximal whitespace run and at least one digit match
(`\s` and `\d` are disjoint, so the greedy `\s*` cannot backtrack into a
match); returns the captured integer. -/
def findCrawlDelay : List Char → Option ℕ
  | [] => none
  | s@(_ :: rest) =>
    if crawlDelayLit.isPrefixOf s then
      let afterSpaces := (s.drop crawlDelayLit.length).dropWhile isSpaceChar
      let digits := afterSpaces.takeWhile Char.isDigit
      if digits = [] then findCrawlDelay rest else some (digitsToNat digits)
    else findCrawlDelay rest

/-- The `directives` accumulator dict of `_analyze_bot_directive`. -/
structure DirectiveState where
  allowed : Bool
  disallowed_paths : List (List Char)
  crawl_delay : Option ℕ
  user_agents_found : List (List Char)
  directives_found : List (List Char)
deriving DecidableEq, Repr

/-- The initial `directives` dict. -/
def initialDirectives : DirectiveState :=
  { allowed := true, disallowed_paths := [], crawl_delay := none
    user_agents_found := [], directives_found := [] }

/-- The `for user_agent in user_agents` loop body of
`_analyze_bot_directive`, folded over the alias list. -/
def directiveLoop (robots : List Char) : DirectiveState → List (List Char) → DirectiveState
  | st, [] => st
  | st, ua :: rest =>
    let st1 :=
      if containsSub (lowerList ua) (lowerList robots) then
        let stFound := { st with user_agents_found := st.user_agents_found ++ [ua] }
        match findSection ua robots with
        | none => stFound
        | some section_text =>
          let stSec :=
            { stFound with directives_found := stFound.directives_found ++ [section_text] }
          let disallows := findDisallows section_text
          let stDis :=
            if disallows ≠ [] then
              { stSec with disallowed_paths := stSec.disallowed_paths ++ disallows
                           allowed := false }
            else stSec
          match findCrawlDelay section_text with
          | some d => { stDis with crawl_delay := some d }
          | none => stDis
      else st
    directiveLoop robots st1 rest

/-- Output of `_analyze_bot_directive`: the fields derived from the
directive state (`bot_name`, `company`, `purpose` are pass-through
registry metadata, and `explanation` is presentation only; neither is
modelled). -/
structure BotDirectiveResult where
  is_allowed : Bool
  disallowed_paths : List (List Char)
  crawl_delay : Option ℕ
  user_agents_found : List (List Char)
deriving DecidableEq, Repr

/-- `CrawlabilityAnalyzer._analyze_bot_directive` (lines 249-302). -/
def analyze_bot_directive (robots_content : List Char) (user_agents : List (List Char)) :
    BotDirectiveResult :=
  let d := directiveLoop robots_content initialDirectives user_agents
  { is_allowed := d.allowed, disallowed_paths := d.disallowed_paths
    crawl_delay := d.crawl_delay, user_agents_found := d.user_agents_found }

end CrawlabilityAnalyzer

/-! ### Claims C3 and C4: the seo-module aggregator -/

/-- Binding an `Option` into a constantly-`none` continuation is `none`. -/
theorem option_bind_const_none {α β : Type} (x : Option α) :
    (x.bind fun _ => (none : Option β)) = none := by
  cases x <;> rfl

/-- C3: `compute_metrics` of src/seo/seo_metrics.py never returns.  Its
`overall_score` entry calls `_compute_overall_score`, whose first
statement calls `compute_metrics` again, unconditionally: no fuel bound
on the nesting depth suffices for any input, which is exactly the
unbounded mutual recursion (a `RecursionError` in Python) — contradicting
the claim that the aggregator terminates for every well-typed input. -/
theorem c3_compute_metrics_diverges :
    ∀ (n : ℕ) (a : SeoAnalysis),
      SeoMetricsSub.compute_metrics_fuel n a = none ∧
      SeoMetricsSub.compute_overall_score_fuel n a = none := by
  intro n
  induction n with
  | zero => exact fun a => ⟨rfl, rfl⟩
  | succ n ih =>
    intro a
    constructor
    · show SeoMetricsSub.compute_metrics_fuel (n + 1) a = none
      simp only [SeoMetricsSub.compute_metrics_fuel, (ih a).1]
      cases SeoMetricsSub.analyze_content_quality a <;>
        cases SeoMetricsSub.compute_technical_score a <;>
        cases SeoMetricsSub.analyze_keyword_optimization a <;>
        cases SeoMetricsSub.analyze_link_quality a <;>
        cases SeoMetricsSub.analyze_image_optimization a <;>
        cases SeoMetricsSub.analyze_readability a <;>
        cases SeoMetricsSub.generate_recommendations a <;> rfl
    · show SeoMetricsSub.compute_overall_score_fuel (n + 1) a = none
      simp only [SeoMetricsSub.compute_overall_score_fuel, (ih a).1]
      rfl

/-- C4: on the fully sparse document `{}` the defensive aggregator of
src/seo_metrics.py returns exactly its documented default metrics (every
missing section replaced by the zero/neutral defaults of
`_get_default_metrics`), but `_analyze_content_quality` of
src/seo/seo_metrics.py raises an uncaught `KeyError`
(`seo_analysis['content_analysis']`) that escapes to the caller. -/
theorem c4_sparse_input :
    SeoMetricsMain.compute_metrics emptyAnalysis = SeoMetricsMain.get_default_metrics ∧
    SeoMetricsSub.analyze_content_quality emptyAnalysis = none := by
  constructor
  · norm_num [SeoMetricsMain.compute_metrics, SeoMetricsMain.get_default_metrics,
      SeoMetricsMain.compute_content_quality, SeoMetricsMain.compute_content_quality_body,
      SeoMetricsMain.compute_technical_score, SeoMetricsMain.compute_technical_score_body,
      SeoMetricsMain.compute_readability, SeoMetricsMain.compute_readability_body,
      SeoMetricsMain.compute_keyword_optimization,
      SeoMetricsMain.compute_keyword_optimization_body,
      SeoMetricsMain.compute_link_quality, SeoMetricsMain.compute_link_quality_body,
      SeoMetricsMain.compute_image_optimization,
      SeoMetricsMain.compute_image_optimization_body,
      SeoMetricsMain.compute_overall_score, emptyAnalysis,
      SeoMetricsMain.default_content_quality, SeoMetricsMain.default_technical_score,
      SeoMetricsMain.default_readability, SeoMetricsMain.default_keyword_optimization,
      SeoMetricsMain.default_link_quality, SeoMetricsMain.default_image_optimization,
      SeoMetricsMain.default_overall_score]
  · rfl

/-! ### Claims C1, C2, C5: the two range scorers -/

/-- C1 counterexample: for `min == max == 0` and `value == 0` the value
lies within `[0,0]`, yet `_normalize_score(0, 0, 0)` returns `0.0`, not
the maximum score `1.0` of the 0-1 convention (the repository's own test
`test_normalize_score` asserts this `0.0`). -/
theorem c1_counterexample :
    (0 : ℚ) ≤ 0 ∧ (0 : ℚ) ≤ 0 ∧
    SeoMetricsMain.normalize_score 0 0 0 = 0 ∧
    SeoMetricsMain.normalize_score 0 0 0 ≠ 1 := by decide

/-- C1 (amended): `_calculate_range_score` (0-100 convention) returns the
maximum score 100 iff `min ≤ value ≤ max`, for every range with
`0 ≤ min ≤ max` (when a division by zero occurs it raises, and so in
particular does not return 100).  `_normalize_score` (0-1 convention)
returns the maximum score 1.0 iff `min ≤ value ≤ max` whenever
`min < max`; when `min == max` it instead returns 1.0 iff `value ≠ 0`, so
for `min == max == 0`, `value == 0` it returns 0.0. -/
theorem c1_range_scorer_max_iff :
    (∀ value min_val max_val : ℚ, 0 ≤ min_val → min_val ≤ max_val →
      (SeoMetricsSub.calculate_range_score value min_val max_val = some 100 ↔
        min_val ≤ value ∧ value ≤ max_val)) ∧
    (∀ value min_val max_val : ℚ, min_val < max_val →
      (SeoMetricsMain.normalize_score value min_val max_val = 1 ↔
        min_val ≤ value ∧ value ≤ max_val)) ∧
    (∀ value m : ℚ,
      SeoMetricsMain.normalize_score value m m = 1 ↔ value ≠ 0) := by
  refine ⟨?_, ?_, ?_⟩
  · intro value min_val max_val hmin hle
    unfold SeoMetricsSub.calculate_range_score
    by_cases hin : min_val ≤ value ∧ value ≤ max_val
    · rw [if_pos hin]
      exact iff_of_true rfl hin
    · rw [if_neg hin]
      by_cases hblo : value < min_val
      · rw [if_pos hblo]
        by_cases h0 : min_val = 0
        · rw [if_pos h0]
          exact iff_of_false (by simp) hin
        · rw [if_neg h0]
          refine iff_of_false ?_ hin
          intro h
          rw [Option.some.injEq] at h
          have hx : value / min_val = 1 := by linarith
          rw [div_eq_one_iff_eq h0] at hx
          exact absurd hx (ne_of_lt hblo)
      · rw [if_neg hblo]
        have habo : max_val < value := by
          rcases not_and_or.mp hin with h | h
          · exact absurd (le_of_not_lt hblo) h
          · exact lt_of_not_le h
        by_cases hm0 : max_val = 0
        · rw [if_pos hm0]
          exact iff_of_false (by simp) hin
        · rw [if_neg hm0]
          have hmaxpos : 0 < max_val := lt_of_le_of_ne (le_trans hmin hle) (Ne.symm hm0)
          refine iff_of_false ?_ hin
          intro h
          rw [Option.some.injEq] at h
          have hlt100 : max 0 (100 - (value - max_val) / max_val * 100) < 100 := by
            apply max_lt (by norm_num)
            have hd : 0 < (value - max_val) / max_val := div_pos (by linarith) hmaxpos
            nlinarith
          exact absurd h (ne_of_lt hlt100)
  · intro value min_val max_val hlt
    unfold SeoMetricsMain.normalize_score SeoMetricsMain.normalize_score_body
    rw [if_neg (ne_of_lt hlt)]
    by_cases hblo : value < min_val
    · rw [if_pos hblo]
      by_cases h0 : min_val = 0
      · rw [if_neg (not_not_intro h0), Option.getD_some]
        refine iff_of_false (by norm_num) ?_
        rintro ⟨h1, _⟩
        rw [h0] at hblo
        linarith
      · rw [if_pos h0, Option.getD_some]
        constructor
        · intro h
          rw [div_eq_one_iff_eq h0] at h
          exact absurd h (ne_of_lt hblo)
        · rintro ⟨h1, _⟩
          exact absurd hblo (not_lt.mpr h1)
    · rw [if_neg hblo]
      by_cases habo : max_val < value
      · rw [if_pos habo]
        by_cases hm0 : max_val = 0
        · rw [if_pos hm0, Option.getD_none]
          refine iff_of_false (by norm_num) ?_
          rintro ⟨_, h2⟩
          exact absurd habo (not_lt.mpr h2)
        · rw [if_neg hm0, Option.getD_some]
          refine iff_of_false ?_ ?_
          · intro h
            have hd : (value - max_val) / max_val = 0 := by linarith
            rcases div_eq_zero_iff.mp hd with h1 | h1
            · exact absurd (by linarith : value = max_val) (ne_of_gt habo)
            · exact absurd h1 hm0
          · rintro ⟨_, h2⟩
            exact absurd habo (not_lt.mpr h2)
      · rw [if_neg habo, Option.getD_some]
        exact iff_of_true rfl ⟨le_of_not_lt hblo, le_of_not_lt habo⟩
  · intro value m
    unfold SeoMetricsMain.normalize_score SeoMetricsMain.normalize_score_body
    rw [if_pos rfl, Option.getD_some]
    by_cases hv : value = 0
    · rw [if_pos hv]
      exact iff_of_false (by norm_num) (not_not_intro hv)
    · rw [if_neg hv]
      exact iff_of_true rfl hv

/-- C1 witness: the amended theorem at the title range `[50,60]` with
value 55, the range `[30,60]` with value 50, and the degenerate range
`[2,2]` with value 5. -/
theorem c1_witness :
    (SeoMetricsSub.calculate_range_score 55 50 60 = some 100 ↔
      (50 : ℚ) ≤ 55 ∧ (55 : ℚ) ≤ 60) ∧
    (SeoMetricsMain.normalize_score 50 30 60 = 1 ↔ (30 : ℚ) ≤ 50 ∧ (50 : ℚ) ≤ 60) ∧
    (SeoMetricsMain.normalize_score 5 2 2 = 1 ↔ (5 : ℚ) ≠ 0) :=
  ⟨c1_range_scorer_max_iff.1 55 50 60 (by norm_num) (by norm_num),
   c1_range_scorer_max_iff.2.1 50 30 60 (by norm_num),
   c1_range_scorer_max_iff.2.2 5 2⟩

/-- C2 counterexample: outside-range scores can be negative.
`_normalize_score` has no floor in its above-range branch, so for
`value > 2*max` (here 250 against `[10,100]`) it returns `-1/2 < 0`; and
both scorers return negative scores for negative values below `min`
(here `-5` against `[10,100]`: `-1/2` and `-50`). -/
theorem c2_counterexample :
    (100 : ℚ) * 2 < 250 ∧ SeoMetricsMain.normalize_score 250 10 100 = -(1 / 2) ∧
    (-5 : ℚ) < 10 ∧ SeoMetricsMain.normalize_score (-5) 10 100 = -(1 / 2) ∧
    SeoMetricsSub.calculate_range_score (-5) 10 100 = some (-50) := by
  refine ⟨by norm_num, ?_, by norm_num, ?_, ?_⟩ <;>
    norm_num [SeoMetricsMain.normalize_score, SeoMetricsMain.normalize_score_body,
      SeoMetricsSub.calculate_range_score]

/-- C2 (amended): for every range with `0 < min < max` and every value
outside the range, both scorers return strictly less than the maximum
score, and scores weakly decrease as the distance from the nearest bound
grows; but they are not always non-negative.  Below the range the score
(`value/min`, scaled by 100 in the 0-100 convention) is non-negative iff
the value is; above the range `_calculate_range_score` floors at 0 while
`_normalize_score` does not, staying non-negative only up to
`value = 2*max` (see the counterexample for both failure modes). -/
theorem c2_outside_range :
    ∀ min_val max_val : ℚ, 0 < min_val → min_val < max_val →
      (∀ value, value < min_val →
        SeoMetricsMain.normalize_score value min_val max_val = value / min_val ∧
        value / min_val < 1 ∧
        (0 ≤ value → 0 ≤ value / min_val) ∧
        SeoMetricsSub.calculate_range_score value min_val max_val =
          some (value / min_val * 100) ∧
        value / min_val * 100 < 100) ∧
      (∀ value, max_val < value →
        SeoMetricsMain.normalize_score value min_val max_val =
          1 - (value - max_val) / max_val ∧
        1 - (value - max_val) / max_val < 1 ∧
        (value ≤ 2 * max_val → 0 ≤ 1 - (value - max_val) / max_val) ∧
        SeoMetricsSub.calculate_range_score value min_val max_val =
          some (max 0 (100 - (value - max_val) / max_val * 100)) ∧
        0 ≤ max 0 (100 - (value - max_val) / max_val * 100) ∧
        max 0 (100 - (value - max_val) / max_val * 100) < 100) ∧
      (∀ v1 v2, v1 ≤ v2 → v2 < min_val →
        SeoMetricsMain.normalize_score v1 min_val max_val ≤
          SeoMetricsMain.normalize_score v2 min_val max_val) ∧
      (∀ v1 v2, max_val < v1 → v1 ≤ v2 →
        SeoMetricsMain.normalize_score v2 min_val max_val ≤
          SeoMetricsMain.normalize_score v1 min_val max_val ∧
        max 0 (100 - (v2 - max_val) / max_val * 100) ≤
          max 0 (100 - (v1 - max_val) / max_val * 100)) := by
  intro min_val max_val hmin hlt
  have hmax : 0 < max_val := lt_trans hmin hlt
  have hne : min_val ≠ max_val := ne_of_lt hlt
  have hnorm_below : ∀ value, value < min_val →
      SeoMetricsMain.normalize_score value min_val max_val = value / min_val := by
    intro value hblo
    unfold SeoMetricsMain.normalize_score SeoMetricsMain.normalize_score_body
    rw [if_neg hne, if_pos hblo, if_pos (ne_of_gt hmin), Option.getD_some]
  have hnorm_above : ∀ value, max_val < value →
      SeoMetricsMain.normalize_score value min_val max_val =
        1 - (value - max_val) / max_val := by
    intro value habo
    unfold SeoMetricsMain.normalize_score SeoMetricsMain.normalize_score_body
    rw [if_neg hne, if_neg (not_lt.mpr (le_of_lt (lt_trans hlt habo))),
      if_pos habo, if_neg (ne_of_gt hmax), Option.getD_some]
  refine ⟨?_, ?_, ?_, ?_⟩
  · intro value hblo
    refine ⟨hnorm_below value hblo, ?_, ?_, ?_, ?_⟩
    · exact (div_lt_one hmin).mpr hblo
    · intro hv
      exact div_nonneg hv (le_of_lt hmin)
    · unfold SeoMetricsSub.calculate_range_score
      rw [if_neg (fun h => absurd hblo (not_lt.mpr h.1)), if_pos hblo,
        if_neg (ne_of_gt hmin)]
    · have := (div_lt_one hmin).mpr hblo
      nlinarith
  · intro value habo
    have hd : 0 < (value - max_val) / max_val := div_pos (by linarith) hmax
    refine ⟨hnorm_above value habo, by linarith, ?_, ?_, le_max_left _ _, ?_⟩
    · intro h2
      have : (value - max_val) / max_val ≤ 1 := (div_le_one hmax).mpr (by linarith)
      linarith
    · unfold SeoMetricsSub.calculate_range_score
      rw [if_neg (fun h => absurd habo (not_lt.mpr h.2)),
        if_neg (not_lt.mpr (le_of_lt (lt_trans hlt habo))), if_neg (ne_of_gt hmax)]
    · exact max_lt (by norm_num) (by nlinarith)
  · intro v1 v2 h12 h2
    rw [hnorm_below v1 (lt_of_le_of_lt h12 h2), hnorm_below v2 h2]
    exact (div_le_div_iff_of_pos_right hmin).mpr h12
  · intro v1 v2 h1 h12
    have h2 : max_val < v2 := lt_of_lt_of_le h1 h12
    constructor
    · rw [hnorm_above v1 h1, hnorm_above v2 h2]
      have : (v1 - max_val) / max_val ≤ (v2 - max_val) / max_val :=
        (div_le_div_iff_of_pos_right hmax).mpr (by linarith)
      linarith
    · apply max_le_max le_rfl
      have : (v1 - max_val) / max_val ≤ (v2 - max_val) / max_val :=
        (div_le_div_iff_of_pos_right hmax).mpr (by linarith)
      nlinarith

/-- C2 witness: the amended theorem on the range `[10,100]`, below at
value 5 and above at value 150. -/
theorem c2_witness :
    (SeoMetricsMain.normalize_score 5 10 100 = 5 / 10 ∧
      (5 : ℚ) / 10 < 1 ∧ ((0 : ℚ) ≤ 5 → (0 : ℚ) ≤ 5 / 10) ∧
      SeoMetricsSub.calculate_range_score 5 10 100 = some (5 / 10 * 100) ∧
      (5 : ℚ) / 10 * 100 < 100) ∧
    SeoMetricsMain.normalize_score 150 10 100 =
      1 - ((150 : ℚ) - 100) / 100 :=
  ⟨(c2_outside_range 10 100 (by norm_num) (by norm_num)).1 5 (by norm_num),
   ((c2_outside_range 10 100 (by norm_num) (by norm_num)).2.1 150 (by norm_num)).1⟩

/-- C5 counterexample: `_calculate_range_score` does raise for the
degenerate ranges of the claim: with `min == 0` and a value below the
range it divides by `min`, and with `min == max == 0` and a nonzero
value it divides by `max` — both `ZeroDivisionError`s (`none`), not
returned numbers. -/
theorem c5_counterexample :
    SeoMetricsSub.calculate_range_score (-1) 0 5 = none ∧
    SeoMetricsSub.calculate_range_score 1 0 0 = none := by decide

/-- C5 (amended): `_normalize_score` never raises for `min == 0` or
`min == max` (its below-range division is guarded and the degenerate-range
branch divides by nothing).  `_calculate_range_score` returns a number for
`min == max == m` whenever `m ≠ 0`, and for `min == 0` whenever the value
is non-negative and `max ≠ 0`; the remaining degenerate cases raise
`ZeroDivisionError` (see the counterexample). -/
theorem c5_degenerate_ranges :
    (∀ value min_val max_val : ℚ, min_val = 0 ∨ min_val = max_val →
      (SeoMetricsMain.normalize_score_body value min_val max_val).isSome) ∧
    (∀ value m : ℚ, m ≠ 0 →
      (SeoMetricsSub.calculate_range_score value m m).isSome) ∧
    (∀ value max_val : ℚ, 0 ≤ value → max_val ≠ 0 →
      (SeoMetricsSub.calculate_range_score value 0 max_val).isSome) := by
  refine ⟨?_, ?_, ?_⟩
  · intro value min_val max_val h
    unfold SeoMetricsMain.normalize_score_body
    rcases h with h0 | hdeg
    · by_cases heq : min_val = max_val
      · rw [if_pos heq]; rfl
      · rw [if_neg heq]
        by_cases hblo : value < min_val
        · rw [if_pos hblo]; rfl
        · rw [if_neg hblo]
          by_cases habo : max_val < value
          · rw [if_pos habo]
            have hm : ¬ max_val = 0 := fun hh => heq (h0.trans hh.symm)
            rw [if_neg hm]; rfl
          · rw [if_neg habo]; rfl
    · rw [if_pos hdeg]; rfl
  · intro value m hm
    unfold SeoMetricsSub.calculate_range_score
    by_cases hin : m ≤ value ∧ value ≤ m
    · rw [if_pos hin]; rfl
    · rw [if_neg hin]
      by_cases hblo : value < m
      · rw [if_pos hblo, if_neg hm]; rfl
      · rw [if_neg hblo, if_neg hm]; rfl
  · intro value max_val hv hmax
    unfold SeoMetricsSub.calculate_range_score
    by_cases hin : (0 : ℚ) ≤ value ∧ value ≤ max_val
    · rw [if_pos hin]; rfl
    · rw [if_neg hin, if_neg (not_lt.mpr hv), if_neg hmax]; rfl

/-- C5 witness: the amended theorem at `_normalize_score`'s body on range
`[0,5]`, and `_calculate_range_score` on the degenerate range `[4,4]` and
on `[0,9]` with value 2. -/
theorem c5_witness :
    (SeoMetricsMain.normalize_score_body 7 0 5).isSome ∧
    (SeoMetricsSub.calculate_range_score 3 4 4).isSome ∧
    (SeoMetricsSub.calculate_range_score 2 0 9).isSome :=
  ⟨c5_degenerate_ranges.1 7 0 5 (Or.inl rfl),
   c5_degenerate_ranges.2.1 3 4 (by norm_num),
   c5_degenerate_ranges.2.2 2 9 (by norm_num) (by norm_num)⟩

/-! ### Claim C6: readability level tiers -/

/-- C6 counterexample: the tier chain inside
`ReadabilityAnalyzer._calculate_flesch_score` has no `Unknown` tier — its
final `else` is `Very Difficult` — so a negative Flesch score does not
map to `Unknown` there. -/
theorem c6_counterexample :
    ReadabilityAnalyzer.flesch_level (-1) = "Very Difficult" ∧
    ReadabilityAnalyzer.flesch_level (-1) ≠ "Unknown" := by decide

/-- C6 (amended): both tier chains are exhaustive and non-overlapping with
the stated inclusive lower bounds — the guarding intervals partition the
rationals, and on each interval each chain returns exactly one tier.
`SEOMetrics._get_readability_level` maps every negative score to
`Unknown`; the chain inside `ReadabilityAnalyzer._calculate_flesch_score`
agrees on all non-negative scores but maps negative scores to
`Very Difficult`, having no `Unknown` tier. -/
theorem c6_readability_tiers :
    ∀ s : ℚ,
      (90 ≤ s → SeoMetricsMain.get_readability_level s = "Very Easy" ∧
        ReadabilityAnalyzer.flesch_level s = "Very Easy") ∧
      (80 ≤ s → s < 90 → SeoMetricsMain.get_readability_level s = "Easy" ∧
        ReadabilityAnalyzer.flesch_level s = "Easy") ∧
      (70 ≤ s → s < 80 → SeoMetricsMain.get_readability_level s = "Fairly Easy" ∧
        ReadabilityAnalyzer.flesch_level s = "Fairly Easy") ∧
      (60 ≤ s → s < 70 → SeoMetricsMain.get_readability_level s = "Standard" ∧
        ReadabilityAnalyzer.flesch_level s = "Standard") ∧
      (50 ≤ s → s < 60 → SeoMetricsMain.get_readability_level s = "Fairly Difficult" ∧
        ReadabilityAnalyzer.flesch_level s = "Fairly Difficult") ∧
      (30 ≤ s → s < 50 → SeoMetricsMain.get_readability_level s = "Difficult" ∧
        ReadabilityAnalyzer.flesch_level s = "Difficult") ∧
      (0 ≤ s → s < 30 → SeoMetricsMain.get_readability_level s = "Very Difficult" ∧
        ReadabilityAnalyzer.flesch_level s = "Very Difficult") ∧
      (s < 0 → SeoMetricsMain.get_readability_level s = "Unknown" ∧
        ReadabilityAnalyzer.flesch_level s = "Very Difficult") := by
  intro s
  unfold SeoMetricsMain.get_readability_level ReadabilityAnalyzer.flesch_level
  refine ⟨?_, ?_, ?_, ?_, ?_, ?_, ?_, ?_⟩
  · intro h1
    rw [if_pos h1, if_pos h1]
    exact ⟨rfl, rfl⟩
  · intro h1 h2
    rw [if_neg (by linarith), if_pos h1, if_neg (by linarith), if_pos h1]
    exact ⟨rfl, rfl⟩
  · intro h1 h2
    rw [if_neg (by linarith), if_neg (by linarith), if_pos h1,
      if_neg (by linarith), if_neg (by linarith), if_pos h1]
    exact ⟨rfl, rfl⟩
  · intro h1 h2
    rw [if_neg (by linarith), if_neg (by linarith), if_neg (by linarith), if_pos h1,
      if_neg (by linarith), if_neg (by linarith), if_neg (by linarith), if_pos h1]
    exact ⟨rfl, rfl⟩
  · intro h1 h2
    rw [if_neg (by linarith), if_neg (by linarith), if_neg (by linarith),
      if_neg (by linarith), if_pos h1,
      if_neg (by linarith), if_neg (by linarith), if_neg (by linarith),
      if_neg (by linarith), if_pos h1]
    exact ⟨rfl, rfl⟩
  · intro h1 h2
    rw [if_neg (by linarith), if_neg (by linarith), if_neg (by linarith),
      if_neg (by linarith), if_neg (by linarith), if_pos h1,
      if_neg (by linarith), if_neg (by linarith), if_neg (by linarith),
      if_neg (by linarith), if_neg (by linarith), if_pos h1]
    exact ⟨rfl, rfl⟩
  · intro h1 h2
    rw [if_neg (by linarith), if_neg (by linarith), if_neg (by linarith),
      if_neg (by linarith), if_neg (by linarith), if_neg (by linarith), if_pos h1,
      if_neg (by linarith), if_neg (by linarith), if_neg (by linarith),
      if_neg (by linarith), if_neg (by linarith), if_neg (by linarith)]
    exact ⟨rfl, rfl⟩
  · intro h1
    rw [if_neg (by linarith), if_neg (by linarith), if_neg (by linarith),
      if_neg (by linarith), if_neg (by linarith), if_neg (by linarith),
      if_neg (by linarith),
      if_neg (by linarith), if_neg (by linarith), if_neg (by linarith),
      if_neg (by linarith), if_neg (by linarith), if_neg (by linarith)]
    exact ⟨rfl, rfl⟩

/-- C6 witness: the amended theorem at scores 95 and -1. -/
theorem c6_witness :
    (SeoMetricsMain.get_readability_level 95 = "Very Easy" ∧
      ReadabilityAnalyzer.flesch_level 95 = "Very Easy") ∧
    (SeoMetricsMain.get_readability_level (-1) = "Unknown" ∧
      ReadabilityAnalyzer.flesch_level (-1) = "Very Difficult") :=
  ⟨(c6_readability_tiers 95).1 (by norm_num),
   (c6_readability_tiers (-1)).2.2.2.2.2.2.2 (by norm_num)⟩

/-! ### Claim C7: syllable counting lower bounds -/

/-- If some character of `l` is a vowel and the scan enters `l` after a
non-vowel, the transition scan counts at least one vowel-group start. -/
theorem vowelStarts_pos :
    ∀ (l : List Char) (prev : Char), ¬ isVowel prev = true →
      (∃ c ∈ l, isVowel c = true) → 1 ≤ vowelStarts prev l := by
  intro l
  induction l with
  | nil =>
    rintro prev _ ⟨c, hc, _⟩
    exact absurd hc (List.not_mem_nil c)
  | cons c rest ih =>
    rintro prev hprev ⟨d, hd, hdv⟩
    simp only [vowelStarts]
    by_cases hcv : isVowel c = true
    · rw [if_pos ⟨hcv, hprev⟩]
      omega
    · rw [if_neg (fun hh => hcv hh.1)]
      rcases List.mem_cons.mp hd with rfl | hdr
      · exact absurd hdv hcv
      · simpa using ih c hcv ⟨d, hdr, hdv⟩

/-- If some character of `c :: rest` is a vowel, the heuristic's count
before the trailing-`e` adjustment is at least one. -/
theorem syllable_base_pos (c : Char) (rest : List Char)
    (h : ∃ d ∈ c :: rest, isVowel d = true) :
    1 ≤ (if isVowel c then (1 : ℤ) else 0) + (vowelStarts c rest : ℤ) := by
  by_cases hcv : isVowel c = true
  · rw [if_pos hcv]
    have := Int.natCast_nonneg (vowelStarts c rest)
    omega
  · rw [if_neg hcv]
    obtain ⟨d, hd, hdv⟩ := h
    rcases List.mem_cons.mp hd with rfl | hdr
    · exact absurd hdv hcv
    · have h1 : 1 ≤ vowelStarts c rest := vowelStarts_pos rest c hcv ⟨d, hdr, hdv⟩
      have h2 : (1 : ℤ) ≤ (vowelStarts c rest : ℤ) := by exact_mod_cast h1
      omega

/-- A word that ends with `'e'` contains the vowel `'e'`. -/
theorem endsWithE_mem {l : List Char} (h : endsWithE l = true) : 'e' ∈ l := by
  unfold endsWithE at h
  cases hl : l.getLast? with
  | none => rw [hl] at h; exact absurd h (by simp)
  | some c =>
    rw [hl] at h
    have hc : c = 'e' := by simpa using h
    subst hc
    obtain ⟨hne, heq⟩ := List.mem_getLast?_eq_getLast (x := 'e') (by rw [hl]; rfl)
    rw [heq]
    exact List.getLast_mem hne

/-- C7 counterexample: `SEOMetrics._count_syllables` of src/seo_metrics.py
applies the trailing-`e` decrement and the floor-at-zero test to the
running total over the whole text, not per word, so the text `"be be"`
(two words) counts only 1 syllable — the total syllable count can be
smaller than the number of words. -/
theorem c7_counterexample :
    (splitWs "be be".data).length = 2 ∧
    SeoMetricsMain.count_syllables "be be".data = 1 ∧
    SeoMetricsMain.count_syllables "be be".data <
      ((splitWs "be be".data).length : ℤ) := by decide

/-- C7 (amended): the per-word heuristic syllable counter of
src/readability.py returns at least 1 for every non-empty word, and hence
the total over every list of non-empty words is at least the number of
words.  (The whole-text counter of src/seo_metrics.py shares one running
count across words, and its total can fall below the word count — see the
counterexample.) -/
theorem c7_heuristic_at_least_one :
    (∀ w : List Char, w ≠ [] →
      ∃ k : ℤ, ReadabilityAnalyzer.count_syllables w = some k ∧ 1 ≤ k) ∧
    (∀ ws : List (List Char), (∀ w ∈ ws, w ≠ []) →
      (ws.length : ℤ) ≤ (ws.map ReadabilityAnalyzer.count_syllables_heuristic).sum) := by
  have part1 : ∀ w : List Char, w ≠ [] →
      ∃ k : ℤ, ReadabilityAnalyzer.count_syllables w = some k ∧ 1 ≤ k := by
    intro w hw
    cases hl : lowerList w with
    | nil =>
      exact absurd (List.map_eq_nil_iff.mp hl) hw
    | cons c rest =>
      simp only [ReadabilityAnalyzer.count_syllables, hl]
      refine ⟨_, rfl, ?_⟩
      by_cases he : endsWithE (c :: rest) = true
      · have hbase := syllable_base_pos c rest ⟨'e', endsWithE_mem he, by decide⟩
        rw [if_pos he]
        split_ifs at hbase ⊢ <;> omega
      · have hnn : (0 : ℤ) ≤ (if isVowel c then (1 : ℤ) else 0) + (vowelStarts c rest : ℤ) := by
          have := Int.natCast_nonneg (vowelStarts c rest)
          split_ifs <;> omega
        rw [if_neg he]
        split_ifs at hnn ⊢ <;> omega
  refine ⟨part1, ?_⟩
  intro ws
  induction ws with
  | nil => simp
  | cons w ws ih =>
    intro h
    obtain ⟨k, hk, hk1⟩ := part1 w (h w (List.mem_cons_self w ws))
    have hsum := ih (fun x hx => h x (List.mem_cons_of_mem _ hx))
    have hw : ReadabilityAnalyzer.count_syllables_heuristic w = k := by
      rw [ReadabilityAnalyzer.count_syllables_heuristic, hk]
      rfl
    simp only [List.map_cons, List.sum_cons, List.length_cons, hw]
    push_cast
    omega

/-- C7 witness: the theorem at the word `"be"` and the word list
`["be", "be"]` (per-word floor 1 each, total 2 ≥ 2 words — unlike the
whole-text counter of the counterexample). -/
theorem c7_witness :
    (∃ k : ℤ, ReadabilityAnalyzer.count_syllables "be".data = some k ∧ 1 ≤ k) ∧
    ((([("be".data), ("be".data)] : List (List Char)).length : ℤ) ≤
      (([("be".data), ("be".data)] : List (List Char)).map
        ReadabilityAnalyzer.count_syllables_heuristic).sum) :=
  ⟨c7_heuristic_at_least_one.1 "be".data (by decide),
   c7_heuristic_at_least_one.2 [("be".data), ("be".data)] (by decide)⟩

/-! ### Claim C8: robots.txt bot directives -/

/-- Aliases with no case-insensitive occurrence in the text leave the
directive state untouched. -/
theorem directiveLoop_skip (robots : List Char) :
    ∀ (uas : List (List Char)) (st : CrawlabilityAnalyzer.DirectiveState),
      (∀ ua ∈ uas, containsSub (lowerList ua) (lowerList robots) = false) →
      CrawlabilityAnalyzer.directiveLoop robots st uas = st := by
  intro uas
  induction uas with
  | nil => intro st _; rfl
  | cons ua rest ih =>
    intro st h
    have hc := h ua (List.mem_cons_self ua rest)
    simp only [CrawlabilityAnalyzer.directiveLoop, hc]
    exact ih st (fun x hx => h x (List.mem_cons_of_mem _ hx))

/-- The loop preserves "blocked iff some disallowed path was collected":
`allowed` is set to `False` exactly when a non-empty `Disallow` list is
appended, and the path list never shrinks. -/
theorem directiveLoop_inv (robots : List Char) :
    ∀ (uas : List (List Char)) (st : CrawlabilityAnalyzer.DirectiveState),
      (st.allowed = false ↔ st.disallowed_paths ≠ []) →
      ((CrawlabilityAnalyzer.directiveLoop robots st uas).allowed = false ↔
        (CrawlabilityAnalyzer.directiveLoop robots st uas).disallowed_paths ≠ []) := by
  intro uas
  induction uas with
  | nil => intro st h; exact h
  | cons ua rest ih =>
    intro st h
    simp only [CrawlabilityAnalyzer.directiveLoop]
    apply ih
    by_cases hc : containsSub (lowerList ua) (lowerList robots) = true
    · rw [if_pos hc]
      cases hsec : CrawlabilityAnalyzer.findSection ua robots with
      | none => simpa using h
      | some sec =>
        by_cases hdis : CrawlabilityAnalyzer.findDisallows sec = []
        · cases hcd : CrawlabilityAnalyzer.findCrawlDelay sec <;>
            simp [hdis, hcd, h]
        · cases hcd : CrawlabilityAnalyzer.findCrawlDelay sec <;>
            simp [hdis, hcd]
    · rw [if_neg hc]
      exact h

/-- C8: bot-directive extraction.  (1) On the robots.txt text
`"User-agent: GPTBot\nDisallow: /private/\nCrawl-delay: 10"` the GPTBot
directive has `allowed = False`, `disallowed_paths = ["/private/"]` and
`crawl_delay = 10`, with the alias recorded as found.  (2) Every identity
none of whose aliases occurs case-insensitively in the text gets the
default directive: allowed, no paths, no crawl delay.  (3) In every
result, `allowed = False` holds iff some `Disallow` path was collected. -/
theorem c8_bot_directive :
    CrawlabilityAnalyzer.analyze_bot_directive
        "User-agent: GPTBot\nDisallow: /private/\nCrawl-delay: 10".data ["GPTBot".data] =
      { is_allowed := false, disallowed_paths := ["/private/".data]
        crawl_delay := some 10, user_agents_found := ["GPTBot".data] } ∧
    (∀ (robots : List Char) (uas : List (List Char)),
      (∀ ua ∈ uas, containsSub (lowerList ua) (lowerList robots) = false) →
      CrawlabilityAnalyzer.analyze_bot_directive robots uas =
        { is_allowed := true, disallowed_paths := [], crawl_delay := none
          user_agents_found := [] }) ∧
    (∀ (robots : List Char) (uas : List (List Char)),
      (CrawlabilityAnalyzer.analyze_bot_directive robots uas).is_allowed = false ↔
        (CrawlabilityAnalyzer.analyze_bot_directive robots uas).disallowed_paths ≠ []) := by
  refine ⟨by decide, ?_, ?_⟩
  · intro robots uas h
    unfold CrawlabilityAnalyzer.analyze_bot_directive
    rw [directiveLoop_skip robots uas CrawlabilityAnalyzer.initialDirectives h]
    rfl
  · intro robots uas
    exact directiveLoop_inv robots uas CrawlabilityAnalyzer.initialDirectives
      (by simp [CrawlabilityAnalyzer.initialDirectives])

/-- C8 witness: a robots.txt with no LLM-bot alias yields the default
directive for ClaudeBot's two aliases. -/
theorem c8_witness :
    CrawlabilityAnalyzer.analyze_bot_directive "Sitemap: /sitemap.xml".data
        ["ClaudeBot".data, "anthropic-ai".data] =
      { is_allowed := true, disallowed_paths := [], crawl_delay := none
        user_agents_found := [] } :=
  c8_bot_directive.2.1 "Sitemap: /sitemap.xml".data
    ["ClaudeBot".data, "anthropic-ai".data] (by decide)

/-! ### Claim C9: Flesch Reading Ease guards and formula -/

/-- C9: both Flesch computations return the constant 0 on degenerate input
and the documented formula otherwise.  For `SEOMetrics._compute_readability`
(a total function — its division guards make the zero-words case return 0,
and `re.split` always yields at least one sentence chunk): a main content
with no words scores 0, and a main content with at least one word scores
`206.835 - 1.015*(words/sentences) - 84.6*(syllables/words)`.  For
`ReadabilityAnalyzer._calculate_flesch_score`: empty sentence or word
token lists give score 0, and otherwise the score is the same formula
with `syllables` the sum of the per-word counts. -/
theorem c9_flesch_guard_and_formula :
    (∀ (a : SeoAnalysis) (content : ContentAnalysis), a.content_analysis = some content →
      splitWs (content.main_content.getD []) = [] →
      (SeoMetricsMain.compute_readability a).flesch_reading_ease = 0) ∧
    (∀ (a : SeoAnalysis) (content : ContentAnalysis), a.content_analysis = some content →
      0 < (splitWs (content.main_content.getD [])).length →
      (SeoMetricsMain.compute_readability a).flesch_reading_ease =
        206.835 -
          1.015 * (((splitWs (content.main_content.getD [])).length : ℚ) /
            ((sentenceRuns (content.main_content.getD []) : ℚ) + 1)) -
          84.6 * ((SeoMetricsMain.count_syllables (content.main_content.getD []) : ℚ) /
            ((splitWs (content.main_content.getD [])).length : ℚ))) ∧
    (∀ (countSyll : List Char → ℤ) (sentences words : List (List Char)),
      sentences = [] ∨ words = [] →
      (ReadabilityAnalyzer.calculate_flesch_score countSyll sentences words).score = 0) ∧
    (∀ (countSyll : List Char → ℤ) (sentences words : List (List Char)),
      sentences ≠ [] → words ≠ [] →
      (ReadabilityAnalyzer.calculate_flesch_score countSyll sentences words).score =
        206.835 - 1.015 * ((words.length : ℚ) / (sentences.length : ℚ)) -
          84.6 * (((words.map countSyll).sum : ℚ) / (words.length : ℚ))) := by
  refine ⟨?_, ?_, ?_, ?_⟩
  · intro a content hca hwords
    simp only [SeoMetricsMain.compute_readability, SeoMetricsMain.compute_readability_body,
      hca, Option.bind_eq_bind, Option.some_bind, Option.getD_some]
    rw [hwords]
    norm_num
  · intro a content hca hwords
    simp only [SeoMetricsMain.compute_readability, SeoMetricsMain.compute_readability_body,
      hca, Option.bind_eq_bind, Option.some_bind, Option.getD_some]
    rw [if_pos]
    constructor
    · positivity
    · exact_mod_cast hwords
  · intro countSyll sentences words h
    unfold ReadabilityAnalyzer.calculate_flesch_score
    rcases h with h | h <;> subst h <;> simp
  · intro countSyll sentences words hss hws
    unfold ReadabilityAnalyzer.calculate_flesch_score
    rw [if_neg]
    simp only [List.isEmpty_iff]
    exact fun hh => hh.elim hss hws

/-- C9 witness: the formula at the token lists of the one-sentence text
`"Hi."` (one sentence token, one word token), with the heuristic
syllable counter, and the guard at empty token lists. -/
theorem c9_witness :
    (ReadabilityAnalyzer.calculate_flesch_score
        ReadabilityAnalyzer.count_syllables_heuristic [] [] ).score = 0 ∧
    (ReadabilityAnalyzer.calculate_flesch_score
        ReadabilityAnalyzer.count_syllables_heuristic ["Hi.".data] ["Hi".data]).score =
      206.835 - 1.015 * (((["Hi".data] : List (List Char)).length : ℚ) /
          ((["Hi.".data] : List (List Char)).length : ℚ)) -
        84.6 * (((([("Hi".data)] : List (List Char)).map
            ReadabilityAnalyzer.count_syllables_heuristic).sum : ℚ) /
          ((["Hi".data] : List (List Char)).length : ℚ)) :=
  ⟨c9_flesch_guard_and_formula.2.2.1 ReadabilityAnalyzer.count_syllables_heuristic [] []
      (Or.inl rfl),
   c9_flesch_guard_and_formula.2.2.2 ReadabilityAnalyzer.count_syllables_heuristic
      ["Hi.".data] ["Hi".data] (by decide) (by decide)⟩

/-! ### Claim C10: the readability overall score floor -/

/-- C10: for every combination of the three `is_optimal` flags, the
overall readability score of `ReadabilityAnalyzer._compute_overall_score`
lies in `[0.5, 1.0]` — each component is 0.5 or 1.0 and the weights are
0.4/0.3/0.3 — so the `score < 0.4` branch of
`_get_overall_score_explanation` (`"Poor readability"`) is unreachable,
and the worst possible score is 0.5. -/
theorem c10_overall_score_floor :
    ∀ flesch_opt sentence_opt lexical_opt : Bool,
      (1 : ℚ) / 2 ≤
        (ReadabilityAnalyzer.compute_overall_score flesch_opt sentence_opt lexical_opt).score ∧
      (ReadabilityAnalyzer.compute_overall_score flesch_opt sentence_opt lexical_opt).score ≤ 1 ∧
      ((ReadabilityAnalyzer.compute_overall_score flesch_opt sentence_opt
          lexical_opt).flesch_component = 1 / 2 ∨
        (ReadabilityAnalyzer.compute_overall_score flesch_opt sentence_opt
          lexical_opt).flesch_component = 1) ∧
      ((ReadabilityAnalyzer.compute_overall_score flesch_opt sentence_opt
          lexical_opt).sentence_length_component = 1 / 2 ∨
        (ReadabilityAnalyzer.compute_overall_score flesch_opt sentence_opt
          lexical_opt).sentence_length_component = 1) ∧
      ((ReadabilityAnalyzer.compute_overall_score flesch_opt sentence_opt
          lexical_opt).lexical_component = 1 / 2 ∨
        (ReadabilityAnalyzer.compute_overall_score flesch_opt sentence_opt
          lexical_opt).lexical_component = 1) ∧
      ¬ (ReadabilityAnalyzer.compute_overall_score flesch_opt sentence_opt
          lexical_opt).score < 0.4 ∧
      (ReadabilityAnalyzer.compute_overall_score flesch_opt sentence_opt
          lexical_opt).explanation ≠ "Poor readability" := by
  intro flesch_opt sentence_opt lexical_opt
  cases flesch_opt <;> cases sentence_opt <;> cases lexical_opt <;>
    refine ⟨?_, ?_, ?_, ?_, ?_, ?_, ?_⟩ <;>
    norm_num [ReadabilityAnalyzer.compute_overall_score,
      ReadabilityAnalyzer.get_overall_score_explanation] <;> decide
